import Mathlib

/-!
# Verification of the political-news bias-analysis subsystem

This file gives a shallow embedding, in Lean 4, of the deterministic core of
the Videmy-study backend: the `BiasAnalyzer` scoring pipeline
(`agents/political_news/political_news/sub_agents/bias_analyzer.py`) and the
pure aggregation logic of `scrape_political_news`
(`political-news/political_news/sub_agents/news_scraper.py`), together with
theorems settling the specification claims about them.

Python floats are modelled by exact rationals (`ℚ`); `round(x, 2)` is
modelled by rounding `x * 100` to the nearest integer.  Python strings are
Lean `String`s; Python's `in` substring operator, `str.split()`, `str.lower()`
and the word-boundary alternation regexes used by the analyzer are embedded
as executable functions below.
-/

namespace PoliticalNews

/-- Test `listPrefixOf n h`: true when the character list `n` is a prefix of `h`. -/
def listPrefixOf : List Char → List Char → Bool
  | [], _ => true
  | _ :: _, [] => false
  | a :: as, b :: bs => a == b && listPrefixOf as bs

/-- Test `listContains n h`: true when `n` occurs as a contiguous sublist of `h`
(Python's `n in h` on strings, via their character lists). -/
def listContains (n : List Char) : List Char → Bool
  | [] => n.isEmpty
  | c :: t => listPrefixOf n (c :: t) || listContains n t

/-- Python substring test `needle in hay`. -/
def containsSubstr (needle hay : String) : Bool :=
  listContains needle.data hay.data

/-- Python `str.lower()` (character-wise lower-casing). -/
def lowerStr (s : String) : String :=
  ⟨s.data.map Char.toLower⟩

/-- Characters treated as whitespace by Python's `str.split()` (ASCII part). -/
def isPySpace (c : Char) : Bool :=
  c.isWhitespace || c == '\x0b' || c == '\x0c'

/-- Scanner counting maximal non-whitespace runs; `inWord` records whether the
previous character belonged to a word. -/
def countWords : List Char → Bool → Nat
  | [], _ => 0
  | c :: cs, inWord =>
    if isPySpace c then countWords cs false
    else (if inWord then 0 else 1) + countWords cs true

/-- Number of maximal non-whitespace runs in `s`: `len(s.split())` in Python. -/
def wordCount (s : String) : Nat :=
  countWords s.data false

/-- Word characters for the regex `\b` boundary: `[a-zA-Z0-9_]`. -/
def isWordChar (c : Char) : Bool :=
  c.isAlphanum || c == '_'

/-- Try the alternatives of a pattern `\b(w₁|w₂|…)\b` at the current position:
the first alternative that is a prefix of `cs` and is followed by a word
boundary matches (Python's regex alternation tries alternatives left to
right and backtracks when the trailing `\b` fails). -/
def tryAlts (alts : List String) (cs : List Char) : Option String :=
  alts.findSome? fun w =>
    if listPrefixOf w.data cs then
      match cs.drop w.data.length with
      | [] => some w
      | d :: _ => if isWordChar d then none else some w
    else none

/-- Scanner for `re.findall` of a word-boundary alternation pattern: walks the
text one character at a time; `skip` counts characters still covered by the
previous match (inside which no new match may start), `prev` is the previously
consumed character (for the leading `\b`). -/
def findallGo (alts : List String) : List Char → Nat → Option Char → List String
  | [], _, _ => []
  | c :: cs, skip + 1, _ => findallGo alts cs skip (some c)
  | c :: cs, 0, prev =>
    let atBoundary := match prev with
      | none => true
      | some p => !isWordChar p
    if atBoundary then
      match tryAlts alts (c :: cs) with
      | some w => w :: findallGo alts cs (w.length - 1) (some c)
      | none => findallGo alts cs 0 (some c)
    else
      findallGo alts cs 0 (some c)

/-- Model of `re.findall(r'\b(w₁|w₂|…)\b', text)`: the list of matched alternatives,
left to right, non-overlapping. -/
def findall (alts : List String) (text : String) : List String :=
  findallGo alts text.data 0 none

/-! ## `BiasAnalyzer` vocabulary (`BIASED_TERMS`, patterns, `CREDIBLE_SOURCES`) -/

/-- Vocabulary `BIASED_TERMS["left_wing"]`. -/
def LEFT_WING_TERMS : List String :=
  ["progressive", "liberal agenda", "socialist", "radical left",
   "woke", "cancel culture", "defund the police", "open borders"]

/-- Vocabulary `BIASED_TERMS["right_wing"]`. -/
def RIGHT_WING_TERMS : List String :=
  ["conservative agenda", "far-right", "alt-right", "MAGA",
   "America first", "traditional values", "pro-life", "gun rights"]

/-- Vocabulary `BIASED_TERMS["emotional"]`. -/
def EMOTIONAL_TERMS : List String :=
  ["outrageous", "shocking", "devastating", "amazing", "incredible",
   "terrible", "wonderful", "horrible", "fantastic", "disgusting"]

/-- Vocabulary `BIASED_TERMS["partisan"]`. -/
def PARTISAN_TERMS : List String :=
  ["democrats say", "republicans claim", "liberals argue", "conservatives believe",
   "the left", "the right", "blue state", "red state"]

/-- The three `loaded_patterns` regexes, each as its alternation list. -/
def LOADED_PATTERNS : List (List String) :=
  [["clearly", "obviously", "undoubtedly", "certainly", "definitely"],
   ["always", "never", "everyone", "nobody", "all", "none"],
   ["disaster", "catastrophe", "miracle", "revolutionary", "groundbreaking"]]

/-- The three `factual_patterns` regexes. -/
def FACTUAL_PATTERNS : List (List String) :=
  [["according to", "data shows", "study finds", "research indicates"],
   ["statistics", "figures", "numbers", "percent", "percentage"],
   ["official", "confirmed", "verified", "documented"]]

/-- The three `opinion_patterns` regexes. -/
def OPINION_PATTERNS : List (List String) :=
  [["i think", "i believe", "in my opinion", "it seems", "appears"],
   ["many say", "some argue", "critics claim", "supporters believe"],
   ["should", "could", "would", "might", "may"]]

/-- Tier `CREDIBLE_SOURCES["high"]`. -/
def HIGH_CREDIBILITY_SOURCES : List String :=
  ["reuters", "associated press", "ap", "bbc news", "npr", "pbs",
   "c-span", "wall street journal", "new york times", "washington post",
   "usa today", "cnn", "fox news", "msnbc", "abc news", "cbs news",
   "nbc news", "politico", "roll call", "the hill"]

/-- Tier `CREDIBLE_SOURCES["medium"]`. -/
def MEDIUM_CREDIBILITY_SOURCES : List String :=
  ["bloomberg", "forbes", "time", "newsweek", "the atlantic",
   "the new yorker", "national review", "the nation", "mother jones"]

/-- Tier `CREDIBLE_SOURCES["low"]`. -/
def LOW_CREDIBILITY_SOURCES : List String :=
  ["breitbart", "daily caller", "daily beast", "huffpost", "vox",
   "buzzfeed news", "vice news", "salon", "alternet"]

/-! ## Data model -/

/-- An input article dictionary (the four fields `analyze_article_bias`
reads, with `.get(…, "")` defaults made total). -/
structure Article where
  title : String
  description : String
  content : String
  source : String
deriving DecidableEq, Repr

/-- The `indicators` dictionary of `_detect_bias_indicators`. -/
structure BiasIndicators where
  left_wing_terms : List String
  right_wing_terms : List String
  emotional_terms : List String
  partisan_terms : List String
  loaded_language : List String
  factual_claims : List String
  opinion_indicators : List String
deriving DecidableEq, Repr

/-- The credibility assessment dictionary of `_assess_source_credibility`. -/
structure Credibility where
  level : String
  score : ℚ
  reason : String
deriving DecidableEq, Repr

/-- Python `round(x, 2)` on exact rationals: nearest multiple of `1/100`. -/
def round2 (x : ℚ) : ℚ :=
  (round (x * 100) : ℤ) / 100

/-! ## `BiasAnalyzer` methods -/

/-- Method `BiasAnalyzer._detect_bias_indicators`: vocabulary membership is Python's
substring test; the loaded/factual/opinion lists concatenate the `re.findall`
results of each pattern in order. -/
def _detect_bias_indicators (text : String) : BiasIndicators where
  left_wing_terms := LEFT_WING_TERMS.filter fun term => containsSubstr term text
  right_wing_terms := RIGHT_WING_TERMS.filter fun term => containsSubstr term text
  emotional_terms := EMOTIONAL_TERMS.filter fun term => containsSubstr term text
  partisan_terms := PARTISAN_TERMS.filter fun term => containsSubstr term text
  loaded_language := LOADED_PATTERNS.flatMap fun pattern => findall pattern text
  factual_claims := FACTUAL_PATTERNS.flatMap fun pattern => findall pattern text
  opinion_indicators := OPINION_PATTERNS.flatMap fun pattern => findall pattern text

/-- Method `BiasAnalyzer._assess_source_credibility`: the tiers are scanned in dict
insertion order high, medium, low; an entry matches when it is a substring of
the lower-cased source name; the first matching tier's canned score and
reason are returned, and unmatched sources are `"unknown"` with score 0.5. -/
def _assess_source_credibility (source : String) : Credibility :=
  let source_lower := lowerStr source
  if HIGH_CREDIBILITY_SOURCES.any (fun known => containsSubstr known source_lower) then
    ⟨"high", 0.9, "Known high credibility source"⟩
  else if MEDIUM_CREDIBILITY_SOURCES.any (fun known => containsSubstr known source_lower) then
    ⟨"medium", 0.6, "Known medium credibility source"⟩
  else if LOW_CREDIBILITY_SOURCES.any (fun known => containsSubstr known source_lower) then
    ⟨"low", 0.3, "Known low credibility source"⟩
  else
    ⟨"unknown", 0.5, "Unknown source - requires additional verification"⟩

/-- Method `BiasAnalyzer._detect_emotional_language`: count of emotional vocabulary
terms occurring as substrings, divided by the word count (0.0 when the text
has no words), times 100, capped at 1.0. -/
def _detect_emotional_language (text : String) : ℚ :=
  let emotional_count : ℕ := EMOTIONAL_TERMS.countP fun term => containsSubstr term text
  let word_count : ℕ := wordCount text
  if word_count = 0 then 0
  else min ((emotional_count : ℚ) / (word_count : ℚ) * 100) 1

/-- Method `BiasAnalyzer._detect_partisan_language`: like the emotional detector but
with the partisan vocabulary and factor 50. -/
def _detect_partisan_language (text : String) : ℚ :=
  let partisan_count : ℕ := PARTISAN_TERMS.countP fun term => containsSubstr term text
  let word_count : ℕ := wordCount text
  if word_count = 0 then 0
  else min ((partisan_count : ℚ) / (word_count : ℚ) * 50) 1

/-- Method `BiasAnalyzer._calculate_bias_score`: credibility base score minus the
emotional, partisan, loaded-language and opinion-ratio penalties, floored at
0 and rounded to 2 decimals. -/
def _calculate_bias_score (bias_indicators : BiasIndicators) (credibility_score : Credibility)
    (emotional_score partisan_score : ℚ) : ℚ :=
  let base_score := credibility_score.score
  let bias_penalty : ℚ :=
    emotional_score * 0.3
    + partisan_score * 0.4
    + min ((bias_indicators.loaded_language.length : ℚ) * 0.05) 0.2
    + min ((bias_indicators.opinion_indicators.length : ℚ)
        / (max bias_indicators.factual_claims.length 1 : ℕ) * 0.2) 0.3
  let final_score := max 0 (base_score - bias_penalty)
  round2 final_score

/-- Method `BiasAnalyzer._categorize_bias`. -/
def _categorize_bias (bias_score : ℚ) : String :=
  if 0.8 ≤ bias_score then "Low Bias - Highly Credible"
  else if 0.6 ≤ bias_score then "Moderate Bias - Generally Reliable"
  else if 0.4 ≤ bias_score then "High Bias - Exercise Caution"
  else "Very High Bias - Questionable Reliability"

/-- Method `BiasAnalyzer._generate_recommendations`: five independent rule checks
appending in order, with a fallback message when none fires. -/
def _generate_recommendations (bias_indicators : BiasIndicators)
    (credibility_score : Credibility) (overall_bias_score : ℚ) : List String :=
  let recommendations :=
    (if overall_bias_score < 0.4 then
      ["Cross-reference with multiple sources",
       "Verify factual claims independently",
       "Consider alternative viewpoints"] else [])
    ++ (if 3 < bias_indicators.emotional_terms.length then
      ["Article contains emotional language - focus on facts"] else [])
    ++ (if 2 < bias_indicators.partisan_terms.length then
      ["Article shows partisan bias - seek balanced coverage"] else [])
    ++ (if credibility_score.level = "unknown" then
      ["Source credibility unknown - verify independently"] else [])
    ++ (if bias_indicators.factual_claims.length < bias_indicators.opinion_indicators.length then
      ["Article contains more opinion than fact"] else [])
  if recommendations.isEmpty then ["Article appears balanced and credible"]
  else recommendations

/-- The per-article analysis dictionary returned by `analyze_article_bias`. -/
structure ArticleAnalysis where
  article_title : String
  source : String
  bias_indicators : BiasIndicators
  credibility_score : Credibility
  emotional_score : ℚ
  partisan_score : ℚ
  overall_bias_score : ℚ
  bias_category : String
  recommendations : List String
deriving DecidableEq, Repr

/-- The combined text blob `f"{title} {description} {content}"` built by
`analyze_article_bias` from the lower-cased fields. -/
def fullTextOf (article : Article) : String :=
  lowerStr article.title ++ " " ++ lowerStr article.description ++ " " ++ lowerStr article.content

/-- Method `BiasAnalyzer.analyze_article_bias`: lower-case the fields, join title,
description and content with single spaces, run the detectors, and assemble
the analysis record. -/
def analyze_article_bias (article : Article) : ArticleAnalysis :=
  let source := lowerStr article.source
  let full_text := fullTextOf article
  let bias_indicators := _detect_bias_indicators full_text
  let credibility_score := _assess_source_credibility source
  let emotional_score := _detect_emotional_language full_text
  let partisan_score := _detect_partisan_language full_text
  let overall_bias_score :=
    _calculate_bias_score bias_indicators credibility_score emotional_score partisan_score
  { article_title := article.title
    source := article.source
    bias_indicators := bias_indicators
    credibility_score := credibility_score
    emotional_score := emotional_score
    partisan_score := partisan_score
    overall_bias_score := overall_bias_score
    bias_category := _categorize_bias overall_bias_score
    recommendations :=
      _generate_recommendations bias_indicators credibility_score overall_bias_score }

/-! ## Batch aggregation (`analyze_news_bias`) -/

/-- The `bias_distribution` dictionary of `analyze_news_bias`. -/
structure BiasDistribution where
  low_bias : Nat
  moderate_bias : Nat
  high_bias : Nat
  very_high_bias : Nat
deriving DecidableEq, Repr

/-- The `analysis_summary` dictionary of `analyze_news_bias`. -/
structure AnalysisSummary where
  most_credible_sources : List String
  least_credible_sources : List String
  common_bias_indicators : List (String × Nat)
deriving DecidableEq, Repr

/-- The aggregate report dictionary returned by `analyze_news_bias`. -/
structure AggregateReport where
  total_articles_analyzed : Nat
  average_bias_score : ℚ
  bias_distribution : BiasDistribution
  overall_recommendations : List String
  individual_analyses : List ArticleAnalysis
  analysis_summary : AnalysisSummary
deriving DecidableEq, Repr

/-- The `if`/`elif` substring cascade `analyze_news_bias` uses to put a
category label into a histogram bucket (0 = Low, 1 = Moderate, 2 = High,
3 = Very High; note `"High Bias"` is tested before the fall-through, and is a
substring of `"Very High Bias - …"`). -/
def bucketOf (category : String) : Nat :=
  if containsSubstr "Low Bias" category then 0
  else if containsSubstr "Moderate Bias" category then 1
  else if containsSubstr "High Bias" category then 2
  else 3

/-- The `"{indicator_type}: {indicator}"` key strings of one article's
indicators, in the dictionary's insertion order of `indicator_type`. -/
def indicatorKeyStrings (b : BiasIndicators) : List String :=
  b.left_wing_terms.map (fun ind => "left_wing_terms: " ++ ind)
  ++ b.right_wing_terms.map (fun ind => "right_wing_terms: " ++ ind)
  ++ b.emotional_terms.map (fun ind => "emotional_terms: " ++ ind)
  ++ b.partisan_terms.map (fun ind => "partisan_terms: " ++ ind)
  ++ b.loaded_language.map (fun ind => "loaded_language: " ++ ind)
  ++ b.factual_claims.map (fun ind => "factual_claims: " ++ ind)
  ++ b.opinion_indicators.map (fun ind => "opinion_indicators: " ++ ind)

/-- Update `indicator_counts[key] = indicator_counts.get(key, 0) + 1` on an
insertion-ordered association list (Python dicts preserve insertion order). -/
def bumpCount : List (String × Nat) → String → List (String × Nat)
  | [], key => [(key, 1)]
  | (k, n) :: rest, key =>
    if k = key then (k, n + 1) :: rest else (k, n) :: bumpCount rest key

/-- Function `_get_common_bias_indicators`: tally all key strings across the analyses,
sort by count descending (Python's `sorted(…, reverse=True)` is stable, so
ties keep first-seen order) and keep the top 10. -/
def _get_common_bias_indicators (analyzed_articles : List ArticleAnalysis) :
    List (String × Nat) :=
  let indicator_counts :=
    (analyzed_articles.flatMap fun analysis =>
      indicatorKeyStrings analysis.bias_indicators).foldl bumpCount []
  (indicator_counts.mergeSort fun x y => y.2 ≤ x.2).take 10

/-- Module-level `analyze_news_bias`: analyze every article, accumulate the
total score and the category histogram, and assemble the aggregate report. -/
def analyze_news_bias (articles : List Article) : AggregateReport :=
  let analyzed_articles := articles.map analyze_article_bias
  let total_bias_score := (analyzed_articles.map fun a => a.overall_bias_score).sum
  let bias_distribution : BiasDistribution :=
    { low_bias := analyzed_articles.countP fun a => bucketOf a.bias_category == 0
      moderate_bias := analyzed_articles.countP fun a => bucketOf a.bias_category == 1
      high_bias := analyzed_articles.countP fun a => bucketOf a.bias_category == 2
      very_high_bias := analyzed_articles.countP fun a => bucketOf a.bias_category == 3 }
  let avg_bias_score : ℚ :=
    if articles.length = 0 then 0 else total_bias_score / (articles.length : ℚ)
  let overall_recommendations : List String :=
    (if avg_bias_score < 0.6 then
      ["Overall coverage shows bias - seek diverse sources"] else [])
    ++ (if (articles.length : ℚ) * 0.5 <
          (bias_distribution.high_bias : ℚ) + (bias_distribution.very_high_bias : ℚ) then
      ["Majority of articles show bias - verify information"] else [])
    ++ (if (articles.length : ℚ) * 0.7 < (bias_distribution.low_bias : ℚ) then
      ["Most articles appear credible and balanced"] else [])
  { total_articles_analyzed := articles.length
    average_bias_score := round2 avg_bias_score
    bias_distribution := bias_distribution
    overall_recommendations := overall_recommendations
    individual_analyses := analyzed_articles
    analysis_summary :=
      { most_credible_sources :=
          (analyzed_articles.filter fun a => 0.8 ≤ a.overall_bias_score).map fun a => a.source
        least_credible_sources :=
          (analyzed_articles.filter fun a => a.overall_bias_score < 0.4).map fun a => a.source
        common_bias_indicators := _get_common_bias_indicators analyzed_articles } }

/-! ## News aggregation (`scrape_political_news`) -/

/-- A normalized fetched article, as produced by the three API clients. -/
structure RawArticle where
  title : String
  description : String
  content : String
  url : String
  source : String
  publishedAt : String
  api_source : String
deriving DecidableEq, Repr

/-- The deduplication loop of `scrape_political_news`: `seen_titles` collects
lower-cased titles already kept; an article is kept iff its lower-cased title
is not in the set. -/
def dedupAux : List RawArticle → List String → List RawArticle
  | [], _ => []
  | article :: rest, seen_titles =>
    let title_lower := lowerStr article.title
    if title_lower ∈ seen_titles then dedupAux rest seen_titles
    else article :: dedupAux rest (title_lower :: seen_titles)

/-- The result dictionary of `scrape_political_news` (the wall-clock
`scraped_at` field is outside the model; `time_range` is a constant). -/
structure ScrapeResult where
  topic : String
  total_articles : Nat
  articles : List RawArticle
  sources_used : List String
deriving DecidableEq, Repr

/-- Pure core of `scrape_political_news`, taking the three already-fetched
article lists: concatenate in (NewsAPI, GNews, MediaStack) order, drop
articles whose lower-cased title was already seen, and stable-sort the
survivors descending by the raw `publishedAt` string (Python's
`list.sort(key=…, reverse=True)`). -/
def scrape_political_news (request : String)
    (newsapi_articles gnews_articles mediastack_articles : List RawArticle) : ScrapeResult :=
  let all_articles := newsapi_articles ++ gnews_articles ++ mediastack_articles
  let unique_articles := dedupAux all_articles []
  let sorted_articles :=
    unique_articles.mergeSort fun a b => b.publishedAt ≤ a.publishedAt
  { topic := request
    total_articles := sorted_articles.length
    articles := sorted_articles
    sources_used := (sorted_articles.map fun a => a.api_source).eraseDups }

/-- Specification-side characterization of the dedup: keep exactly the first
occurrence, in list order, of each lower-cased title (fuel-indexed so the
recursion is structural; any fuel ≥ the list length gives the same result). -/
def firstOccAux : Nat → List RawArticle → List RawArticle
  | 0, _ => []
  | _, [] => []
  | fuel + 1, a :: rest =>
    a :: firstOccAux fuel (rest.filter fun b => lowerStr b.title ≠ lowerStr a.title)

/-- The sublist of `l` keeping only the first occurrence of each lower-cased
title. -/
def firstOccurrences (l : List RawArticle) : List RawArticle :=
  firstOccAux l.length l

/-! ## Arithmetic helper lemmas -/

lemma round2_zero : round2 0 = 0 := by
  norm_num [round2, round_eq]

lemma round2_nine_tenths : round2 (0.9 : ℚ) = 0.9 := by
  norm_num [round2, round_eq]

lemma round2_mono {x y : ℚ} (h : x ≤ y) : round2 x ≤ round2 y := by
  have h1 : round (x * 100) ≤ round (y * 100) := by
    rw [round_eq, round_eq]
    exact Int.floor_mono (by linarith)
  have h2 : ((round (x * 100) : ℤ) : ℚ) ≤ ((round (y * 100) : ℤ) : ℚ) := by
    exact_mod_cast h1
  unfold round2
  linarith

/-! ## Bounds on the pipeline components -/

lemma emotional_score_nonneg (text : String) : 0 ≤ _detect_emotional_language text := by
  simp only [_detect_emotional_language]
  split
  · exact le_refl 0
  · exact le_min (by positivity) (by norm_num)

lemma emotional_score_le_one (text : String) : _detect_emotional_language text ≤ 1 := by
  simp only [_detect_emotional_language]
  split
  · norm_num
  · exact min_le_right _ _

lemma partisan_score_nonneg (text : String) : 0 ≤ _detect_partisan_language text := by
  simp only [_detect_partisan_language]
  split
  · exact le_refl 0
  · exact le_min (by positivity) (by norm_num)

lemma partisan_score_le_one (text : String) : _detect_partisan_language text ≤ 1 := by
  simp only [_detect_partisan_language]
  split
  · norm_num
  · exact min_le_right _ _

lemma cred_score_cases (source : String) :
    (_assess_source_credibility source).score = 0.9
    ∨ (_assess_source_credibility source).score = 0.6
    ∨ (_assess_source_credibility source).score = 0.3
    ∨ (_assess_source_credibility source).score = 0.5 := by
  simp only [_assess_source_credibility]
  split_ifs <;> simp

lemma cred_score_le (source : String) : (_assess_source_credibility source).score ≤ 0.9 := by
  rcases cred_score_cases source with h | h | h | h <;> rw [h] <;> norm_num

lemma calculate_score_nonneg (bi : BiasIndicators) (cred : Credibility) (e p : ℚ) :
    0 ≤ _calculate_bias_score bi cred e p := by
  unfold _calculate_bias_score
  have h := round2_mono (le_max_left 0 (cred.score -
    (e * 0.3 + p * 0.4 + min ((bi.loaded_language.length : ℚ) * 0.05) 0.2
      + min ((bi.opinion_indicators.length : ℚ)
          / (max bi.factual_claims.length 1 : ℕ) * 0.2) 0.3)))
  rw [round2_zero] at h
  exact h

lemma calculate_score_le (bi : BiasIndicators) (cred : Credibility) (e p : ℚ)
    (he : 0 ≤ e) (hp : 0 ≤ p) (hc : cred.score ≤ 0.9) :
    _calculate_bias_score bi cred e p ≤ 0.9 := by
  unfold _calculate_bias_score
  have hl : (0 : ℚ) ≤ min ((bi.loaded_language.length : ℚ) * 0.05) 0.2 :=
    le_min (by positivity) (by norm_num)
  have ho : (0 : ℚ) ≤ min ((bi.opinion_indicators.length : ℚ)
      / (max bi.factual_claims.length 1 : ℕ) * 0.2) 0.3 :=
    le_min (by positivity) (by norm_num)
  have hmax : max 0 (cred.score -
      (e * 0.3 + p * 0.4 + min ((bi.loaded_language.length : ℚ) * 0.05) 0.2
        + min ((bi.opinion_indicators.length : ℚ)
            / (max bi.factual_claims.length 1 : ℕ) * 0.2) 0.3)) ≤ 0.9 :=
    max_le (by norm_num) (by nlinarith)
  calc round2 _ ≤ round2 0.9 := round2_mono hmax
    _ = 0.9 := round2_nine_tenths

/-! ## Field projections of `analyze_article_bias` -/

lemma analysis_score_eq (article : Article) :
    (analyze_article_bias article).overall_bias_score =
      _calculate_bias_score (_detect_bias_indicators (fullTextOf article))
        (_assess_source_credibility (lowerStr article.source))
        (_detect_emotional_language (fullTextOf article))
        (_detect_partisan_language (fullTextOf article)) := rfl

lemma analysis_cred_eq (article : Article) :
    (analyze_article_bias article).credibility_score =
      _assess_source_credibility (lowerStr article.source) := rfl

lemma analysis_emotional_eq (article : Article) :
    (analyze_article_bias article).emotional_score =
      _detect_emotional_language (fullTextOf article) := rfl

lemma analysis_partisan_eq (article : Article) :
    (analyze_article_bias article).partisan_score =
      _detect_partisan_language (fullTextOf article) := rfl

lemma analysis_indicators_eq (article : Article) :
    (analyze_article_bias article).bias_indicators =
      _detect_bias_indicators (fullTextOf article) := rfl

lemma analysis_category_eq (article : Article) :
    (analyze_article_bias article).bias_category =
      _categorize_bias ((analyze_article_bias article).overall_bias_score) := rfl

/-- The spec's clean sample article: title `"X"`, empty description and
content, source `"Reuters"`; no vocabulary or pattern hits, so the composite
score is the full credibility base 0.9. -/
lemma reuters_sample_score :
    (analyze_article_bias ⟨"X", "", "", "Reuters"⟩).overall_bias_score = 0.9 := by
  rw [analysis_score_eq]
  have hbi : _detect_bias_indicators (fullTextOf ⟨"X", "", "", "Reuters"⟩) =
      ⟨[], [], [], [], [], [], []⟩ := by rfl
  have hcred : _assess_source_credibility (lowerStr "Reuters") =
      ⟨"high", 0.9, "Known high credibility source"⟩ := by rfl
  have hemo : _detect_emotional_language (fullTextOf ⟨"X", "", "", "Reuters"⟩) = 0 := by
    have hw : wordCount (fullTextOf ⟨"X", "", "", "Reuters"⟩) = 1 := by decide
    have hcnt : EMOTIONAL_TERMS.countP
        (fun term => containsSubstr term (fullTextOf ⟨"X", "", "", "Reuters"⟩)) = 0 := by decide
    simp only [_detect_emotional_language]
    rw [hcnt, hw]
    norm_num
  have hpart : _detect_partisan_language (fullTextOf ⟨"X", "", "", "Reuters"⟩) = 0 := by
    have hw : wordCount (fullTextOf ⟨"X", "", "", "Reuters"⟩) = 1 := by decide
    have hcnt : PARTISAN_TERMS.countP
        (fun term => containsSubstr term (fullTextOf ⟨"X", "", "", "Reuters"⟩)) = 0 := by decide
    simp only [_detect_partisan_language]
    rw [hcnt, hw]
    norm_num
  rw [hbi, hcred, hemo, hpart]
  norm_num [_calculate_bias_score, round2, round_eq]

/-! ## Claim theorems -/

/-- C1: for every article analysis, the composite bias score equals the
source-credibility base score minus penalties, where the penalties are
0.3 × emotional score + 0.4 × partisan score
+ min(0.05 × loaded-language hit count, 0.2)
+ min(0.2 × (opinion hits / max(factual hits, 1)), 0.3),
floored at 0.0 and rounded to 2 decimal places. -/
theorem claim_C1_composite_score_formula (article : Article) :
    (analyze_article_bias article).overall_bias_score =
      round2 (max 0 ((analyze_article_bias article).credibility_score.score -
        (0.3 * (analyze_article_bias article).emotional_score
          + 0.4 * (analyze_article_bias article).partisan_score
          + min (0.05 * ((analyze_article_bias article).bias_indicators.loaded_language.length : ℚ)) 0.2
          + min (0.2 * (((analyze_article_bias article).bias_indicators.opinion_indicators.length : ℚ)
              / (max (analyze_article_bias article).bias_indicators.factual_claims.length 1 : ℕ))) 0.3))) := by
  rw [analysis_score_eq, analysis_cred_eq, analysis_emotional_eq, analysis_partisan_eq,
    analysis_indicators_eq]
  unfold _calculate_bias_score
  ring_nf

/-- C4: for every input article, the composite bias score lies in [0.0, 1.0]
and is an exact multiple of 1/100 (rounded to 2 decimal places). -/
theorem claim_C4_score_in_unit_interval (article : Article) :
    0 ≤ (analyze_article_bias article).overall_bias_score
    ∧ (analyze_article_bias article).overall_bias_score ≤ 1
    ∧ ∃ m : ℤ, (analyze_article_bias article).overall_bias_score = m / 100 := by
  rw [analysis_score_eq]
  refine ⟨calculate_score_nonneg _ _ _ _, ?_, ?_⟩
  · exact le_trans
      (calculate_score_le _ _ _ _ (emotional_score_nonneg _) (partisan_score_nonneg _)
        (cred_score_le _))
      (by norm_num)
  · exact ⟨_, rfl⟩

/-- C9: the credibility base score is always one of 0.9, 0.6, 0.3 or 0.5, and
since the penalties are nonnegative and only subtracted, the composite bias
score is at most 0.9 (the bound is attained, e.g. by a clean Reuters
article), not the 1.0 suggested by the spec's [0, 1] range. -/
theorem claim_C9_score_at_most_nine_tenths (article : Article) :
    ((analyze_article_bias article).credibility_score.score = 0.9
      ∨ (analyze_article_bias article).credibility_score.score = 0.6
      ∨ (analyze_article_bias article).credibility_score.score = 0.3
      ∨ (analyze_article_bias article).credibility_score.score = 0.5)
    ∧ (analyze_article_bias article).overall_bias_score ≤ 0.9
    ∧ (analyze_article_bias ⟨"X", "", "", "Reuters"⟩).overall_bias_score = 0.9 := by
  refine ⟨?_, ?_, ?_⟩
  · rw [analysis_cred_eq]
    exact cred_score_cases _
  · rw [analysis_score_eq]
    exact calculate_score_le _ _ _ _ (emotional_score_nonneg _) (partisan_score_nonneg _)
      (cred_score_le _)
  · exact reuters_sample_score

/-- C2: the source-credibility lookup (lower-cased substring match against the
static tiers) returns score exactly 0.9 for a source name matching a
high-tier entry, 0.6 for one matching a medium-tier entry (and no high-tier
entry), 0.3 for one matching a low-tier entry (and no higher tier), and 0.5
with level `"unknown"` for a name matching no tier entry. -/
theorem claim_C2_credibility_tiers (source : String) :
    ((∃ e ∈ HIGH_CREDIBILITY_SOURCES, containsSubstr e (lowerStr source) = true) →
      _assess_source_credibility source =
        ⟨"high", 0.9, "Known high credibility source"⟩)
    ∧ ((∀ e ∈ HIGH_CREDIBILITY_SOURCES, ¬ containsSubstr e (lowerStr source) = true) →
        (∃ e ∈ MEDIUM_CREDIBILITY_SOURCES, containsSubstr e (lowerStr source) = true) →
      _assess_source_credibility source =
        ⟨"medium", 0.6, "Known medium credibility source"⟩)
    ∧ ((∀ e ∈ HIGH_CREDIBILITY_SOURCES, ¬ containsSubstr e (lowerStr source) = true) →
        (∀ e ∈ MEDIUM_CREDIBILITY_SOURCES, ¬ containsSubstr e (lowerStr source) = true) →
        (∃ e ∈ LOW_CREDIBILITY_SOURCES, containsSubstr e (lowerStr source) = true) →
      _assess_source_credibility source =
        ⟨"low", 0.3, "Known low credibility source"⟩)
    ∧ ((∀ e ∈ HIGH_CREDIBILITY_SOURCES, ¬ containsSubstr e (lowerStr source) = true) →
        (∀ e ∈ MEDIUM_CREDIBILITY_SOURCES, ¬ containsSubstr e (lowerStr source) = true) →
        (∀ e ∈ LOW_CREDIBILITY_SOURCES, ¬ containsSubstr e (lowerStr source) = true) →
      _assess_source_credibility source =
        ⟨"unknown", 0.5, "Unknown source - requires additional verification"⟩) := by
  simp only [_assess_source_credibility]
  refine ⟨fun hh => ?_, fun hnh hm => ?_, fun hnh hnm hl => ?_, fun hnh hnm hnl => ?_⟩
  · rw [if_pos (List.any_eq_true.mpr (by simpa using hh))]
  · rw [if_neg (by simp only [List.any_eq_true]; simpa using hnh),
      if_pos (List.any_eq_true.mpr (by simpa using hm))]
  · rw [if_neg (by simp only [List.any_eq_true]; simpa using hnh),
      if_neg (by simp only [List.any_eq_true]; simpa using hnm),
      if_pos (List.any_eq_true.mpr (by simpa using hl))]
  · rw [if_neg (by simp only [List.any_eq_true]; simpa using hnh),
      if_neg (by simp only [List.any_eq_true]; simpa using hnm),
      if_neg (by simp only [List.any_eq_true]; simpa using hnl)]

/-- Witness for C2 at the four concrete sources `"Reuters"` (high),
`"Bloomberg"` (medium), `"Breitbart"` (low) and `"My Blog"` (no tier). -/
theorem claim_C2_credibility_tiers_witness :
    _assess_source_credibility "Reuters" =
      ⟨"high", 0.9, "Known high credibility source"⟩
    ∧ _assess_source_credibility "Bloomberg" =
      ⟨"medium", 0.6, "Known medium credibility source"⟩
    ∧ _assess_source_credibility "Breitbart" =
      ⟨"low", 0.3, "Known low credibility source"⟩
    ∧ _assess_source_credibility "My Blog" =
      ⟨"unknown", 0.5, "Unknown source - requires additional verification"⟩ :=
  ⟨(claim_C2_credibility_tiers "Reuters").1 ⟨"reuters", by decide, by decide⟩,
    (claim_C2_credibility_tiers "Bloomberg").2.1 (by decide) ⟨"bloomberg", by decide, by decide⟩,
    (claim_C2_credibility_tiers "Breitbart").2.2.1 (by decide) (by decide)
      ⟨"breitbart", by decide, by decide⟩,
    (claim_C2_credibility_tiers "My Blog").2.2.2 (by decide) (by decide) (by decide)⟩

/-- C10: the credibility tiers are checked in the fixed order high, medium,
low, each entry matched as a contiguous substring of the lower-cased source
name, so any source name containing a high-tier entry as a substring is
assessed `"high"` with score 0.9, even if it also contains a medium- or
low-tier entry. -/
theorem claim_C10_high_tier_wins (source : String)
    (h : ∃ e ∈ HIGH_CREDIBILITY_SOURCES, containsSubstr e (lowerStr source) = true) :
    _assess_source_credibility source = ⟨"high", 0.9, "Known high credibility source"⟩ := by
  simp only [_assess_source_credibility]
  rw [if_pos (List.any_eq_true.mpr (by simpa using h))]

/-- Witness for C10 at `"HuffPost Capital"`: it contains the high-tier entry
`"ap"` (inside `"capital"`) and also the low-tier entry `"huffpost"`, and is
assessed high/0.9. -/
theorem claim_C10_high_tier_wins_witness :
    containsSubstr "ap" (lowerStr "HuffPost Capital") = true
    ∧ "ap" ∈ HIGH_CREDIBILITY_SOURCES
    ∧ containsSubstr "huffpost" (lowerStr "HuffPost Capital") = true
    ∧ "huffpost" ∈ LOW_CREDIBILITY_SOURCES
    ∧ _assess_source_credibility "HuffPost Capital" =
        ⟨"high", 0.9, "Known high credibility source"⟩ :=
  ⟨by decide, by decide, by decide, by decide,
    claim_C10_high_tier_wins "HuffPost Capital" ⟨"ap", by decide, by decide⟩⟩

/-- C5: for every article whose title, description and content are all empty
(word count 0 for the combined blob), the emotional and partisan scores are
both exactly 0.0 — the word-count guard returns 0.0 before any division, so
no division by zero occurs. -/
theorem claim_C5_empty_text_scores_zero (source : String) :
    (analyze_article_bias ⟨"", "", "", source⟩).emotional_score = 0
    ∧ (analyze_article_bias ⟨"", "", "", source⟩).partisan_score = 0 := by
  have ht : fullTextOf ⟨"", "", "", source⟩ = "  " := rfl
  have hw : wordCount "  " = 0 := by decide
  constructor
  · rw [analysis_emotional_eq, ht]
    simp only [_detect_emotional_language]
    rw [hw]
    norm_num
  · rw [analysis_partisan_eq, ht]
    simp only [_detect_partisan_language]
    rw [hw]
    norm_num

/-! ## The empty batch and all-credible batches -/

/-- The aggregate report computed for the empty batch.  Note the overall
recommendations: the empty batch has average score 0.0, and `0.0 < 0.6`
fires the "seek diverse sources" warning. -/
lemma analyze_news_bias_nil_report :
    analyze_news_bias [] =
      { total_articles_analyzed := 0
        average_bias_score := 0
        bias_distribution := ⟨0, 0, 0, 0⟩
        overall_recommendations := ["Overall coverage shows bias - seek diverse sources"]
        individual_analyses := []
        analysis_summary := ⟨[], [], []⟩ } := by
  simp only [analyze_news_bias, _get_common_bias_indicators, List.map_nil, List.countP_nil,
    List.sum_nil, List.length_nil, List.filter_nil, List.flatMap_nil, List.foldl_nil,
    List.mergeSort_nil, List.take_nil, Nat.cast_zero]
  norm_num [round2_zero]

/-- A lower bound on a list sum from a pointwise lower bound. -/
lemma mul_length_le_sum (c : ℚ) :
    ∀ l : List ℚ, (∀ x ∈ l, c ≤ x) → c * l.length ≤ l.sum
  | [], _ => by simp
  | x :: xs, h => by
    have ih := mul_length_le_sum c xs fun y hy => h y (List.mem_cons_of_mem _ hy)
    have hx := h x (List.mem_cons_self x xs)
    simp only [List.sum_cons, List.length_cons]
    push_cast
    nlinarith [ih, hx]

/-- C6 counterexample: for the empty batch the code's overall-recommendation
list is not empty (the average 0.0 is below 0.6, so the "seek diverse
sources" warning fires), contradicting the claim that all
recommendation-driving lists are empty. -/
theorem claim_C6_counterexample :
    (analyze_news_bias []).overall_recommendations ≠ [] := by
  rw [analyze_news_bias_nil_report]
  simp

/-- C6 (amended): for the empty batch, the report has 0 articles analyzed,
average score 0.0, all four histogram buckets 0 and empty most/least-credible
and common-indicator lists, but its overall recommendations equal the single
"seek diverse sources" warning (since the average 0.0 is below the 0.6
threshold), rather than being empty. -/
theorem claim_C6_empty_batch_report :
    (analyze_news_bias []).total_articles_analyzed = 0
    ∧ (analyze_news_bias []).average_bias_score = 0
    ∧ (analyze_news_bias []).bias_distribution = ⟨0, 0, 0, 0⟩
    ∧ (analyze_news_bias []).analysis_summary.most_credible_sources = []
    ∧ (analyze_news_bias []).analysis_summary.least_credible_sources = []
    ∧ (analyze_news_bias []).analysis_summary.common_bias_indicators = []
    ∧ (analyze_news_bias []).overall_recommendations =
        ["Overall coverage shows bias - seek diverse sources"] := by
  rw [analyze_news_bias_nil_report]
  exact ⟨rfl, rfl, rfl, rfl, rfl, rfl, rfl⟩

/-- C7 counterexample: the empty batch satisfies the claim's hypothesis
vacuously (every article scores ≥ 0.8), yet its overall recommendations do
not include "Most articles appear credible and balanced" and do include the
"seek diverse sources" warning. -/
theorem claim_C7_counterexample :
    (∀ a ∈ ([] : List Article), 0.8 ≤ (analyze_article_bias a).overall_bias_score)
    ∧ "Most articles appear credible and balanced" ∉
        (analyze_news_bias []).overall_recommendations
    ∧ "Overall coverage shows bias - seek diverse sources" ∈
        (analyze_news_bias []).overall_recommendations := by
  refine ⟨fun a ha => absurd ha (List.not_mem_nil a), ?_, ?_⟩ <;>
    rw [analyze_news_bias_nil_report] <;> decide

/-- C7 (amended): for every nonempty batch in which every article's composite
bias score is at least 0.8, the overall recommendations include "Most
articles appear credible and balanced" and exclude the "seek diverse
sources" warning.  (The empty batch is a counterexample to the unrestricted
claim.) -/
theorem claim_C7_all_credible_batch (articles : List Article) (hne : articles ≠ [])
    (hs : ∀ a ∈ articles, 0.8 ≤ (analyze_article_bias a).overall_bias_score) :
    "Most articles appear credible and balanced" ∈
      (analyze_news_bias articles).overall_recommendations
    ∧ "Overall coverage shows bias - seek diverse sources" ∉
      (analyze_news_bias articles).overall_recommendations := by
  have hlen0 : ¬ (articles.length = 0) := by
    simpa [List.length_eq_zero] using hne
  have hnpos : (0 : ℚ) < (articles.length : ℚ) := by
    exact_mod_cast Nat.pos_of_ne_zero hlen0
  have hcat : ∀ an ∈ articles.map analyze_article_bias,
      an.bias_category = "Low Bias - Highly Credible" := by
    intro an han
    obtain ⟨a, ha, rfl⟩ := List.mem_map.mp han
    rw [analysis_category_eq]
    unfold _categorize_bias
    rw [if_pos (hs a ha)]
  have hlow : (articles.map analyze_article_bias).countP
      (fun a => bucketOf a.bias_category == 0) = articles.length := by
    rw [show articles.length = (articles.map analyze_article_bias).length by
      rw [List.length_map]]
    rw [List.countP_eq_length]
    intro an han
    rw [hcat an han]
    decide
  have hmod : (articles.map analyze_article_bias).countP
      (fun a => bucketOf a.bias_category == 1) = 0 := by
    rw [List.countP_eq_zero]
    intro an han
    rw [hcat an han]
    decide
  have hhigh : (articles.map analyze_article_bias).countP
      (fun a => bucketOf a.bias_category == 2) = 0 := by
    rw [List.countP_eq_zero]
    intro an han
    rw [hcat an han]
    decide
  have hvh : (articles.map analyze_article_bias).countP
      (fun a => bucketOf a.bias_category == 3) = 0 := by
    rw [List.countP_eq_zero]
    intro an han
    rw [hcat an han]
    decide
  have hsum : 0.8 * (articles.length : ℚ) ≤
      ((articles.map analyze_article_bias).map fun a => a.overall_bias_score).sum := by
    have hlen : ((articles.map analyze_article_bias).map
        fun a => a.overall_bias_score).length = articles.length := by
      rw [List.length_map, List.length_map]
    have := mul_length_le_sum 0.8
      ((articles.map analyze_article_bias).map fun a => a.overall_bias_score) ?_
    · rwa [hlen] at this
    · intro x hx
      obtain ⟨an, han, rfl⟩ := List.mem_map.mp hx
      obtain ⟨a, ha, rfl⟩ := List.mem_map.mp han
      exact hs a ha
  have havg : ¬ (((articles.map analyze_article_bias).map
      fun a => a.overall_bias_score).sum / (articles.length : ℚ) < 0.6) := by
    have hdiv : (0.8 : ℚ) ≤ ((articles.map analyze_article_bias).map
        fun a => a.overall_bias_score).sum / (articles.length : ℚ) := by
      rw [le_div_iff₀ hnpos]
      linarith [hsum]
    exact not_lt.mpr (le_trans (by norm_num) hdiv)
  have hc2 : ¬ ((articles.length : ℚ) * 0.5 < ((0 : ℕ) : ℚ) + ((0 : ℕ) : ℚ)) := by
    push_cast
    nlinarith [hnpos]
  have hc3 : (articles.length : ℚ) * 0.7 < ((articles.length : ℕ) : ℚ) := by
    nlinarith [hnpos]
  simp only [analyze_news_bias, hlow, hmod, hhigh, hvh]
  rw [if_neg hlen0]
  rw [if_neg havg, if_neg hc2, if_pos hc3]
  constructor <;> decide

/-- Witness for C7 (amended) at the singleton batch containing the clean
Reuters article, whose composite score is 0.9 ≥ 0.8. -/
theorem claim_C7_all_credible_batch_witness :
    "Most articles appear credible and balanced" ∈
      (analyze_news_bias [⟨"X", "", "", "Reuters"⟩]).overall_recommendations
    ∧ "Overall coverage shows bias - seek diverse sources" ∉
      (analyze_news_bias [⟨"X", "", "", "Reuters"⟩]).overall_recommendations :=
  claim_C7_all_credible_batch [⟨"X", "", "", "Reuters"⟩] (by simp)
    (by
      intro a ha
      rw [List.mem_singleton.mp ha, reuters_sample_score]
      norm_num)

/-! ## Deduplication and sorting of the aggregator -/

lemma firstOccAux_congr (fuel : Nat) :
    ∀ (fuel' : Nat) (l : List RawArticle), l.length ≤ fuel → l.length ≤ fuel' →
      firstOccAux fuel l = firstOccAux fuel' l := by
  induction fuel with
  | zero =>
    intro fuel' l h _
    rw [List.eq_nil_of_length_eq_zero (Nat.le_zero.mp h)]
    cases fuel' <;> rfl
  | succ fuel ih =>
    intro fuel' l h h'
    cases l with
    | nil => cases fuel' <;> rfl
    | cons a rest =>
      cases fuel' with
      | zero => simp at h'
      | succ fuel' =>
        have hr : rest.length ≤ fuel := by
          simp only [List.length_cons] at h
          omega
        have hr' : rest.length ≤ fuel' := by
          simp only [List.length_cons] at h'
          omega
        simp only [firstOccAux, List.cons.injEq, true_and]
        have hlen1 : ((rest.filter fun b => lowerStr b.title ≠ lowerStr a.title)).length ≤ fuel :=
          le_trans (List.length_filter_le _ _) hr
        have hlen2 : ((rest.filter fun b => lowerStr b.title ≠ lowerStr a.title)).length ≤ fuel' :=
          le_trans (List.length_filter_le _ _) hr'
        exact ih fuel' _ hlen1 hlen2

lemma dedupAux_eq_firstOccAux :
    ∀ (l : List RawArticle) (seen : List String) (fuel : Nat), l.length ≤ fuel →
      dedupAux l seen = firstOccAux fuel (l.filter fun b => lowerStr b.title ∉ seen) := by
  intro l
  induction l with
  | nil =>
    intro seen fuel _
    cases fuel <;> rfl
  | cons a rest ih =>
    intro seen fuel h
    cases fuel with
    | zero => simp at h
    | succ fuel =>
      have hr : rest.length ≤ fuel := by
        simp only [List.length_cons] at h
        omega
      by_cases hmem : lowerStr a.title ∈ seen
      · rw [show dedupAux (a :: rest) seen = dedupAux rest seen from by
          simp [dedupAux, hmem]]
        rw [show ((a :: rest).filter fun b => lowerStr b.title ∉ seen)
            = rest.filter (fun b => lowerStr b.title ∉ seen) from by
          simp [List.filter_cons, hmem]]
        exact ih seen (fuel + 1) (le_trans hr (Nat.le_succ _))
      · rw [show dedupAux (a :: rest) seen
            = a :: dedupAux rest (lowerStr a.title :: seen) from by
          simp [dedupAux, hmem]]
        rw [show ((a :: rest).filter fun b => lowerStr b.title ∉ seen)
            = a :: rest.filter (fun b => lowerStr b.title ∉ seen) from by
          simp [List.filter_cons, hmem]]
        simp only [firstOccAux, List.cons.injEq, true_and]
        rw [List.filter_filter, ih (lowerStr a.title :: seen) fuel hr]
        congr 1
        apply List.filter_congr
        intro x _
        simp [List.mem_cons, not_or, Bool.decide_and, Bool.and_comm]

lemma dedupAux_eq_firstOccurrences (l : List RawArticle) :
    dedupAux l [] = firstOccurrences l := by
  have hfilter : (l.filter fun b => lowerStr b.title ∉ ([] : List String)) = l := by
    rw [List.filter_eq_self]
    simp
  have h := dedupAux_eq_firstOccAux l [] l.length le_rfl
  rw [hfilter] at h
  exact h

lemma mem_of_mem_firstOccAux :
    ∀ (fuel : Nat) (l : List RawArticle) (b : RawArticle), b ∈ firstOccAux fuel l → b ∈ l := by
  intro fuel
  induction fuel with
  | zero =>
    intro l b h
    simp [firstOccAux] at h
  | succ fuel ih =>
    intro l b h
    cases l with
    | nil => simp [firstOccAux] at h
    | cons a rest =>
      simp only [firstOccAux, List.mem_cons] at h
      rcases h with h | h
      · exact h ▸ List.mem_cons_self a rest
      · exact List.mem_cons_of_mem a (List.mem_of_mem_filter (ih _ b h))

lemma firstOccAux_pairwise :
    ∀ (fuel : Nat) (l : List RawArticle),
      List.Pairwise (fun x y => lowerStr x.title ≠ lowerStr y.title) (firstOccAux fuel l) := by
  intro fuel
  induction fuel with
  | zero =>
    intro l
    simp [firstOccAux]
  | succ fuel ih =>
    intro l
    cases l with
    | nil => simp [firstOccAux]
    | cons a rest =>
      simp only [firstOccAux]
      refine List.Pairwise.cons ?_ (ih _)
      intro b hb
      have hbf := List.of_mem_filter (mem_of_mem_firstOccAux fuel _ b hb)
      exact (of_decide_eq_true hbf).symm

lemma firstOccurrences_pairwise (l : List RawArticle) :
    List.Pairwise (fun x y => lowerStr x.title ≠ lowerStr y.title) (firstOccurrences l) :=
  firstOccAux_pairwise l.length l

lemma dedupAux_sublist : ∀ (l : List RawArticle) (seen : List String),
    (dedupAux l seen).Sublist l := by
  intro l
  induction l with
  | nil =>
    intro seen
    simp [dedupAux]
  | cons a rest ih =>
    intro seen
    by_cases hmem : lowerStr a.title ∈ seen
    · rw [show dedupAux (a :: rest) seen = dedupAux rest seen from by simp [dedupAux, hmem]]
      exact List.Sublist.cons a (ih seen)
    · rw [show dedupAux (a :: rest) seen
          = a :: dedupAux rest (lowerStr a.title :: seen) from by simp [dedupAux, hmem]]
      exact List.Sublist.cons₂ a (ih _)

/-- C3: for every fetched batch, the aggregator's output article list is a
permutation of the first occurrences (in NewsAPI ++ GNews ++ MediaStack
concatenation order) of each case-insensitive title, and no two output
articles have case-insensitively equal titles. -/
theorem claim_C3_dedup_first_wins (request : String)
    (newsapi_articles gnews_articles mediastack_articles : List RawArticle) :
    ((scrape_political_news request newsapi_articles gnews_articles
        mediastack_articles).articles).Perm
      (firstOccurrences (newsapi_articles ++ gnews_articles ++ mediastack_articles))
    ∧ List.Pairwise (fun x y => lowerStr x.title ≠ lowerStr y.title)
        (scrape_political_news request newsapi_articles gnews_articles
          mediastack_articles).articles := by
  have harts : (scrape_political_news request newsapi_articles gnews_articles
      mediastack_articles).articles =
      (dedupAux (newsapi_articles ++ gnews_articles ++ mediastack_articles) []).mergeSort
        (fun a b => decide (b.publishedAt ≤ a.publishedAt)) := rfl
  rw [harts, dedupAux_eq_firstOccurrences]
  have hperm := List.mergeSort_perm
    (firstOccurrences (newsapi_articles ++ gnews_articles ++ mediastack_articles))
    (fun a b => decide (b.publishedAt ≤ a.publishedAt))
  refine ⟨hperm, ?_⟩
  exact (hperm.pairwise_iff fun h => h.symm).mpr (firstOccurrences_pairwise _)

/-- C8: for every fetched batch, the aggregator's output is sorted descending
by the raw `publishedAt` timestamp string under lexicographic string
comparison, and the sort is stable: for each timestamp value the articles
carrying it appear in the same relative order as in the deduplicated input
(and hence as in the raw NewsAPI ++ GNews ++ MediaStack concatenation). -/
theorem claim_C8_sorted_by_timestamp_desc (request : String)
    (newsapi_articles gnews_articles mediastack_articles : List RawArticle) :
    List.Pairwise (fun x y : RawArticle => y.publishedAt ≤ x.publishedAt)
      (scrape_political_news request newsapi_articles gnews_articles
        mediastack_articles).articles
    ∧ (∀ t : String,
        ((scrape_political_news request newsapi_articles gnews_articles
            mediastack_articles).articles.filter fun a => a.publishedAt == t)
          = (dedupAux (newsapi_articles ++ gnews_articles ++ mediastack_articles) []).filter
              fun a => a.publishedAt == t)
    ∧ (∀ t : String,
        (((scrape_political_news request newsapi_articles gnews_articles
            mediastack_articles).articles.filter fun a => a.publishedAt == t)).Sublist
          ((newsapi_articles ++ gnews_articles ++ mediastack_articles).filter
            fun a => a.publishedAt == t)) := by
  have htrans : ∀ a b c : RawArticle,
      decide (b.publishedAt ≤ a.publishedAt) = true →
      decide (c.publishedAt ≤ b.publishedAt) = true →
      decide (c.publishedAt ≤ a.publishedAt) = true := by
    intro a b c hab hbc
    simp only [decide_eq_true_eq] at *
    exact le_trans hbc hab
  have htotal : ∀ a b : RawArticle,
      (decide (b.publishedAt ≤ a.publishedAt) || decide (a.publishedAt ≤ b.publishedAt))
        = true := by
    intro a b
    simpa [Bool.or_eq_true, decide_eq_true_eq] using le_total b.publishedAt a.publishedAt
  have harts : (scrape_political_news request newsapi_articles gnews_articles
      mediastack_articles).articles =
      (dedupAux (newsapi_articles ++ gnews_articles ++ mediastack_articles) []).mergeSort
        (fun a b => decide (b.publishedAt ≤ a.publishedAt)) := rfl
  have hstable : ∀ t : String,
      (((dedupAux (newsapi_articles ++ gnews_articles ++ mediastack_articles) []).mergeSort
          (fun a b => decide (b.publishedAt ≤ a.publishedAt))).filter
        fun a => a.publishedAt == t)
      = (dedupAux (newsapi_articles ++ gnews_articles ++ mediastack_articles) []).filter
          fun a => a.publishedAt == t := by
    intro t
    set unique := dedupAux (newsapi_articles ++ gnews_articles ++ mediastack_articles) []
      with hunique
    have hall : ∀ x ∈ unique.filter fun a => a.publishedAt == t, x.publishedAt = t := by
      intro x hx
      have hpx := List.of_mem_filter hx
      exact eq_of_beq hpx
    have hpw : (unique.filter fun a => a.publishedAt == t).Pairwise
        (fun a b => decide (b.publishedAt ≤ a.publishedAt) = true) := by
      apply List.pairwise_of_forall_mem_list
      intro x hx y hy
      simp [hall x hx, hall y hy]
    have hsub : (unique.filter fun a => a.publishedAt == t).Sublist
        (unique.mergeSort fun a b => decide (b.publishedAt ≤ a.publishedAt)) :=
      List.sublist_mergeSort htrans htotal hpw (List.filter_sublist _)
    have hsub2 : (unique.filter fun a => a.publishedAt == t).Sublist
        ((unique.mergeSort fun a b => decide (b.publishedAt ≤ a.publishedAt)).filter
          fun a => a.publishedAt == t) := by
      have hself : ((unique.filter fun a => a.publishedAt == t).filter
          fun a => a.publishedAt == t) = unique.filter fun a => a.publishedAt == t := by
        rw [List.filter_eq_self]
        intro x hx
        have hpx := List.of_mem_filter hx
        exact hpx
      have h2 := List.Sublist.filter (fun a => a.publishedAt == t) hsub
      rwa [hself] at h2
    have hperm : ((unique.mergeSort fun a b =>
        decide (b.publishedAt ≤ a.publishedAt)).filter fun a => a.publishedAt == t).Perm
        (unique.filter fun a => a.publishedAt == t) :=
      (List.mergeSort_perm unique _).filter _
    exact (List.Sublist.eq_of_length hsub2 hperm.symm.length_eq).symm
  refine ⟨?_, ?_, ?_⟩
  · rw [harts]
    exact (List.sorted_mergeSort htrans htotal _).imp fun h => decide_eq_true_eq.mp h
  · intro t
    rw [harts]
    exact hstable t
  · intro t
    rw [harts, hstable t]
    exact List.Sublist.filter _ (dedupAux_sublist _ _)

end PoliticalNews
